import Mathlib

/-!
Verification of `magenta/models/accompaniment_rnn/accompaniment_rnn_config_flags.py`.

Shallow embedding: the tf flags become a structure, the module-level
`default_configs` dict of `accompaniment_rnn_model` becomes an explicit
association list threaded through the function (the Python code mutates the
looked-up entry in place, so the function returns the updated registry
alongside its result), and the single exception class becomes an `Except`
error value carrying the formatted message string.
-/

/-- The three `MelodyEncoderDecoder` classes held in `melody_encoder_decoders`.
Modelled from the spec: the classes live in `magenta.music`, outside this
repository slice; only their identity matters to the resolution logic. -/
inductive MelodyEncoderDecoderType where
  | oneHot
  | lookback
  | key
deriving Repr, DecidableEq

/-- Modelled from the spec: the `GeneratorDetails` message of
`magenta.protobuf.generator_pb2` (not under src/): an identity value with
optional `id` and `description` strings. -/
structure GeneratorDetails where
  id : Option String
  description : Option String
deriving Repr, DecidableEq

/-- Modelled from the spec: `MelodyPairEncoderDecoder` from
`accompaniment_rnn_encoder_decoder` (not under src/): a strategy pairing a
melody encoder/decoder with an integer look-ahead offset.  Its constructor
stores the two arguments unchecked, which is all the resolution logic uses. -/
structure MelodyPairEncoderDecoder where
  melodyEncoderDecoder : MelodyEncoderDecoderType
  predictaheadSteps : Int
deriving Repr, DecidableEq

/-- Modelled from the spec: `magenta.common.HParams`, a hyperparameter
name-to-value mapping; `HParams()` starts empty. -/
structure HParams where
  values : List (String × String)
deriving Repr, DecidableEq

/-- The mapping produced by the bare constructor `HParams()`. -/
def HParams.empty : HParams := ⟨[]⟩

/-- Set one hyperparameter, overriding an existing entry for the same name. -/
def HParams.setValue (h : HParams) (k v : String) : HParams :=
  if (h.values.map Prod.fst).contains k then
    ⟨h.values.map (fun p => if p.1 == k then (k, v) else p)⟩
  else
    ⟨h.values ++ [(k, v)]⟩

/-- Modelled from the spec: `HParams.parse` consumes the serialized mapping
given by `--hparams` and merges the parsed entries into the mapping, on top of
any values already present.  The embedding receives the flag in already-parsed
form (a list of name/value pairs); the string-to-mapping parser itself is an
external collaborator. -/
def HParams.parse (h : HParams) (overrides : List (String × String)) : HParams :=
  overrides.foldl (fun acc p => acc.setValue p.1 p.2) h

/-- Modelled from the spec: `AccompanimentRnnConfig` from
`accompaniment_rnn_model` (not under src/): the output configuration holding
generator details, an encoder/decoder strategy and hyperparameters. -/
structure AccompanimentRnnConfig where
  details : Option GeneratorDetails
  encoder_decoder : MelodyPairEncoderDecoder
  hparams : HParams
deriving Repr, DecidableEq

/-- The exception class raised by `config_from_flags`; it carries only the
human-readable message. -/
structure AccompanimentRnnConfigFlagsException where
  msg : String
deriving Repr, DecidableEq

/-- The tf flags read by `config_from_flags`.  String flags default to `None`
(`Option.none` here); `predictahead_steps` defaults to `0`; `hparams` holds
the parsed form of its string value, whose default is the empty mapping. -/
structure Flags where
  config : Option String
  melody_encoder_decoder : Option String
  predictahead_steps : Int
  generator_id : Option String
  generator_description : Option String
  hparams : List (String × String)
deriving Repr, DecidableEq

/-- The `melody_encoder_decoders` dict (source lines 60-64). -/
def melody_encoder_decoders : List (String × MelodyEncoderDecoderType) :=
  [("onehot", MelodyEncoderDecoderType.oneHot),
   ("lookback", MelodyEncoderDecoderType.lookback),
   ("key", MelodyEncoderDecoderType.key)]

/-- How Python `%s`-formats one string key of a dict: in single quotes. -/
def pyStrRepr (s : String) : String := "\x27" ++ s ++ "\x27"

/-- Comma-separated quoted keys, the inside of Python rendering of a key
list. -/
def pyCommaSep : List String → String
  | [] => ""
  | [k] => pyStrRepr k
  | k :: k2 :: rest => pyStrRepr k ++ ", " ++ pyCommaSep (k2 :: rest)

/-- How Python `%s`-formats a dict key list. -/
def pyReprList (ks : List String) : String := "[" ++ pyCommaSep ks ++ "]"

/-- The message of the mutual-exclusion failure (source lines 84-86). -/
def mutualExclusionMsg : String :=
  "Exactly one of \x60--config\x60 or \x60--melody_encoder_decoder\x60 must be supplied."

/-- The message of a registry miss, mirroring the Python format string
used at source lines 90-92 and 110-112. -/
def mustBeOneOfMsg (flag : String) (ks : List String) (got : String) : String :=
  "\x60" ++ flag ++ "\x60 must be one of " ++ pyReprList ks ++ ". Got " ++ got ++ "."

/-- The process-wide `default_configs` dict of `accompaniment_rnn_model`
(not under src/); threaded explicitly because Branch B mutates its entries. -/
abbrev DefaultConfigs := List (String × AccompanimentRnnConfig)

/-- Write `v` back over the entry of key `k`, modelling in-place mutation of
the object the registry holds for `k`. -/
def updateAssoc (R : DefaultConfigs) (k : String) (v : AccompanimentRnnConfig) :
    DefaultConfigs :=
  R.map (fun p => if p.1 = k then (k, v) else p)

/-- `config_from_flags` (source lines 67-119).  The first component is the
returned config or the raised exception; the second is `default_configs`
after the call: in Branch B the returned object is the registry entry itself,
so its mutations (hparams merge, generator detail overwrites) are written
back.  In Branch B the detail overwrites go through `Option.map`: registry
entries carry details per the spec, and an entry without details would make
the Python code fail with an `AttributeError` rather than reach a return. -/
def config_from_flags (FLAGS : Flags) (default_configs : DefaultConfigs) :
    Except AccompanimentRnnConfigFlagsException AccompanimentRnnConfig ×
      DefaultConfigs :=
  if ((if FLAGS.melody_encoder_decoder = none then 1 else 0) +
      (if FLAGS.config = none then 1 else 0) : Nat) ≠ 1 then
    (Except.error ⟨mutualExclusionMsg⟩, default_configs)
  else
    match FLAGS.melody_encoder_decoder with
    | some med =>
      match melody_encoder_decoders.lookup med with
      | none =>
        (Except.error ⟨mustBeOneOfMsg "--melody_encoder_decoder"
            (melody_encoder_decoders.map Prod.fst) med⟩, default_configs)
      | some medCls =>
        let generator_details : Option GeneratorDetails :=
          match FLAGS.generator_id with
          | some gid =>
            let d0 : GeneratorDetails := { id := some gid, description := none }
            some (match FLAGS.generator_description with
                  | some descr => { d0 with description := some descr }
                  | none => d0)
          | none => none
        let encoder_decoder : MelodyPairEncoderDecoder :=
          { melodyEncoderDecoder := medCls,
            predictaheadSteps := FLAGS.predictahead_steps }
        let hparams := HParams.parse HParams.empty FLAGS.hparams
        (Except.ok { details := generator_details,
                     encoder_decoder := encoder_decoder,
                     hparams := hparams }, default_configs)
    | none =>
      match FLAGS.config with
      | none =>
        -- unreachable: the count guard already failed when both flags are
        -- None; Python would look up the key None and report it as "None"
        (Except.error ⟨mustBeOneOfMsg "--config"
            (default_configs.map Prod.fst) "None"⟩, default_configs)
      | some cfgName =>
        match default_configs.lookup cfgName with
        | none =>
          (Except.error ⟨mustBeOneOfMsg "--config"
              (default_configs.map Prod.fst) cfgName⟩, default_configs)
        | some config0 =>
          let config1 :=
            { config0 with hparams := config0.hparams.parse FLAGS.hparams }
          let config2 :=
            match FLAGS.generator_id with
            | some gid =>
              { config1 with
                details := config1.details.map (fun d => { d with id := some gid }) }
            | none => config1
          let config3 :=
            match FLAGS.generator_description with
            | some descr =>
              { config2 with
                details := config2.details.map
                  (fun d => { d with description := some descr }) }
            | none => config2
          (Except.ok config3, updateAssoc default_configs cfgName config3)

/-! Helper lemmas about substring occurrence in the formatted messages. -/

/-- `sub` occurs as a contiguous substring of `msg`. -/
def mentions (msg sub : String) : Prop := sub.data <:+: msg.data

instance (msg sub : String) : Decidable (mentions msg sub) :=
  List.decidableInfix sub.data msg.data

theorem infix_ext_right (l x y : List Char) (h : l <:+: x) : l <:+: x ++ y := by
  obtain ⟨s, t, rfl⟩ := h
  exact ⟨s, t ++ y, by simp⟩

theorem infix_ext_left (l x y : List Char) (h : l <:+: y) : l <:+: x ++ y := by
  obtain ⟨s, t, rfl⟩ := h
  exact ⟨x ++ s, t, by simp⟩

theorem mentions_middle (a b c : String) : mentions (a ++ b ++ c) b := by
  refine ⟨a.data, c.data, ?_⟩
  simp [String.data_append]

theorem mentions_append_right (x y sub : String) (h : mentions x sub) :
    mentions (x ++ y) sub := by
  unfold mentions at *
  rw [String.data_append]
  exact infix_ext_right _ _ _ h

theorem mentions_append_left (x y sub : String) (h : mentions y sub) :
    mentions (x ++ y) sub := by
  unfold mentions at *
  rw [String.data_append]
  exact infix_ext_left _ _ _ h

theorem mem_mentions_pyCommaSep (k : String) (ks : List String) (h : k ∈ ks) :
    mentions (pyCommaSep ks) k := by
  induction ks with
  | nil => cases h
  | cons a rest ih =>
    cases rest with
    | nil =>
      have hk : k = a := by simpa using h
      subst hk
      exact mentions_middle "\x27" k "\x27"
    | cons b rest2 =>
      rcases List.mem_cons.mp h with hk | hk
      · subst hk
        show mentions (pyStrRepr k ++ ", " ++ pyCommaSep (b :: rest2)) k
        exact mentions_append_right _ _ _
          (mentions_append_right _ _ _ (mentions_middle "\x27" k "\x27"))
      · show mentions (pyStrRepr a ++ ", " ++ pyCommaSep (b :: rest2)) k
        exact mentions_append_left _ _ _ (ih hk)

theorem mentions_pyReprList (k : String) (ks : List String) (h : k ∈ ks) :
    mentions (pyReprList ks) k := by
  unfold pyReprList
  exact mentions_append_right _ _ _
    (mentions_append_left _ _ _ (mem_mentions_pyCommaSep k ks h))

theorem mustBeOneOfMsg_mentions_got (flag : String) (ks : List String)
    (got : String) : mentions (mustBeOneOfMsg flag ks got) got := by
  unfold mustBeOneOfMsg
  exact mentions_middle _ got "."

theorem mustBeOneOfMsg_mentions_key (flag : String) (ks : List String)
    (got k : String) (h : k ∈ ks) : mentions (mustBeOneOfMsg flag ks got) k := by
  unfold mustBeOneOfMsg
  exact mentions_append_right _ _ _ (mentions_append_right _ _ _
    (mentions_append_right _ _ _ (mentions_append_left _ _ _
      (mentions_pyReprList k ks h))))

theorem mustBeOneOfMsg_head (flag : String) (ks : List String) (got : String) :
    (mustBeOneOfMsg flag ks got).data.head? = some '\x60' := by
  unfold mustBeOneOfMsg
  simp only [String.data_append]
  rfl

theorem mustBeOneOfMsg_ne_mutualExclusionMsg (flag : String) (ks : List String)
    (got : String) : mustBeOneOfMsg flag ks got ≠ mutualExclusionMsg := by
  intro h
  have h2 : (mustBeOneOfMsg flag ks got).data.head? =
      mutualExclusionMsg.data.head? := by rw [h]
  rw [mustBeOneOfMsg_head] at h2
  rw [show mutualExclusionMsg.data.head? = some 'E' from rfl] at h2
  exact absurd (Option.some.inj h2) (by decide)

theorem lookup_updateAssoc :
    ∀ (R : DefaultConfigs) (n : String) (c v : AccompanimentRnnConfig),
      R.lookup n = some c → (updateAssoc R n v).lookup n = some v := by
  intro R n c v
  induction R with
  | nil => intro h; simp [List.lookup] at h
  | cons p rest ih =>
    intro h
    obtain ⟨a, b⟩ := p
    by_cases ha : a = n
    · subst ha
      have hcons : updateAssoc ((a, b) :: rest) a v =
          (a, v) :: updateAssoc rest a v := by
        simp [updateAssoc]
      rw [hcons, List.lookup]
      simp
    · have h2 : (n == a) = false := by
        simp only [beq_eq_false_iff_ne]
        exact Ne.symm ha
      have h3 : rest.lookup n = some c := by
        rw [List.lookup] at h
        rw [h2] at h
        exact h
      have hcons : updateAssoc ((a, b) :: rest) n v =
          (a, b) :: updateAssoc rest n v := by
        simp [updateAssoc, ha]
      rw [hcons, List.lookup, h2]
      exact ih h3

/-- The notion of a flag being present that claim C1 uses: non-null and
non-empty.  This follows the claim wording, not the source: the source
counts a flag as supplied exactly when it is not `None`. -/
def presentPerClaim (o : Option String) : Bool :=
  match o with
  | none => false
  | some s => !(s == "")

/-- Claim C1, as stated, is false: with `config` set to the empty string and
`melody_encoder_decoder` set to `"onehot"`, exactly one of the two flags is
present in the claim sense (non-empty/non-null), so the claim requires the
mutual-exclusion check to pass, yet the code counts `None` values and raises
the mutual-exclusion error. -/
theorem C1_counterexample :
    presentPerClaim (some "") = false ∧
    presentPerClaim (some "onehot") = true ∧
    (config_from_flags ⟨some "", some "onehot", 0, none, none, []⟩ []).1 =
      Except.error ⟨mutualExclusionMsg⟩ :=
  ⟨rfl, rfl, rfl⟩

/-- Claim C1 amended: with present meaning non-null (any non-`None` value,
an empty string included), `config_from_flags` raises
`AccompanimentRnnConfigFlagsException` naming both flags whenever both or
neither of `config` and `melody_encoder_decoder` are present, and whenever
exactly one is present the mutual-exclusion check passes (that error is not
raised). -/
theorem C1_mutual_exclusion (f : Flags) (R : DefaultConfigs) :
    ((f.config = none ↔ f.melody_encoder_decoder = none) →
      (config_from_flags f R).1 = Except.error ⟨mutualExclusionMsg⟩ ∧
      mentions mutualExclusionMsg "--config" ∧
      mentions mutualExclusionMsg "--melody_encoder_decoder") ∧
    (¬ (f.config = none ↔ f.melody_encoder_decoder = none) →
      (config_from_flags f R).1 ≠ Except.error ⟨mutualExclusionMsg⟩) := by
  obtain ⟨oc, om, pas, gid, gdesc, hp⟩ := f
  constructor
  · intro hiff
    cases oc with
    | none =>
      have hm : om = none := hiff.mp rfl
      subst hm
      exact ⟨rfl, by decide, by decide⟩
    | some cn =>
      cases om with
      | none => exact absurd (hiff.mpr rfl) (by simp)
      | some mn => exact ⟨rfl, by decide, by decide⟩
  · intro hne
    cases oc with
    | none =>
      cases om with
      | none => exact absurd (by simp) hne
      | some mn =>
        cases hlk : melody_encoder_decoders.lookup mn with
        | none =>
          simp [config_from_flags, hlk]
          exact mustBeOneOfMsg_ne_mutualExclusionMsg _ _ _
        | some cls =>
          simp [config_from_flags, hlk]
    | some cn =>
      cases om with
      | some mn => exact absurd (by simp) hne
      | none =>
        cases hlk : R.lookup cn with
        | none =>
          simp [config_from_flags, hlk]
          exact mustBeOneOfMsg_ne_mutualExclusionMsg _ _ _
        | some c0 =>
          simp [config_from_flags, hlk]

theorem C1_mutual_exclusion_witness :
    (config_from_flags ⟨some "x", some "onehot", 0, none, none, []⟩ []).1 =
      Except.error ⟨mutualExclusionMsg⟩ :=
  ((C1_mutual_exclusion ⟨some "x", some "onehot", 0, none, none, []⟩ []).1
    (by simp)).1

/-- The configuration object Branch B leaves in (and returns from) the
registry: hparams merged in place, then generator detail overwrites
(source lines 113-118). -/
def branchBResult (f : Flags) (c : AccompanimentRnnConfig) :
    AccompanimentRnnConfig :=
  let config1 := { c with hparams := c.hparams.parse f.hparams }
  let config2 :=
    match f.generator_id with
    | some gid =>
      { config1 with
        details := config1.details.map (fun d => { d with id := some gid }) }
    | none => config1
  match f.generator_description with
  | some descr =>
    { config2 with
      details := config2.details.map
        (fun d => { d with description := some descr }) }
  | none => config2

theorem branchB_spec (f : Flags) (R : DefaultConfigs) (n : String)
    (c : AccompanimentRnnConfig)
    (hc : f.config = some n) (hm : f.melody_encoder_decoder = none)
    (hR : R.lookup n = some c) :
    config_from_flags f R =
      (Except.ok (branchBResult f c), updateAssoc R n (branchBResult f c)) := by
  obtain ⟨oc, om, pas, gid, gdesc, hp⟩ := f
  simp only at hc hm
  subst hc
  subst hm
  simp [config_from_flags, hR, branchBResult]

theorem branchBResult_hparams (f : Flags) (c : AccompanimentRnnConfig) :
    (branchBResult f c).hparams = c.hparams.parse f.hparams := by
  unfold branchBResult
  cases f.generator_id <;> cases f.generator_description <;> simp

theorem branchA_spec (f : Flags) (R : DefaultConfigs) (m : String)
    (cls : MelodyEncoderDecoderType)
    (hc : f.config = none) (hm : f.melody_encoder_decoder = some m)
    (hlk : melody_encoder_decoders.lookup m = some cls) :
    config_from_flags f R =
      (Except.ok
        { details :=
            match f.generator_id with
            | some gid =>
              some { id := some gid, description := f.generator_description }
            | none => none,
          encoder_decoder := ⟨cls, f.predictahead_steps⟩,
          hparams := HParams.parse HParams.empty f.hparams }, R) := by
  obtain ⟨oc, om, pas, gid, gdesc, hp⟩ := f
  simp only at hc hm
  subst hc
  subst hm
  cases gid <;> cases gdesc <;> simp [config_from_flags, hlk]

/-- A sample registry entry used by concrete witnesses. -/
def exampleBaseConfig : AccompanimentRnnConfig :=
  ⟨some ⟨some "id0", none⟩, ⟨MelodyEncoderDecoderType.oneHot, 0⟩,
    ⟨[("lr", "1")]⟩⟩

/-- A sample one-entry registry used by concrete witnesses. -/
def exampleRegistry : DefaultConfigs := [("basic", exampleBaseConfig)]

/-- Claim C2: in Branch B the hparams override is merged in place into the
shared registry entry, so two calls with the same config name and different
overrides leave the second result with both overrides merged cumulatively
onto the one shared entry (resolution is not idempotent across calls). -/
theorem C2_cumulative_override (R : DefaultConfigs) (n : String)
    (c : AccompanimentRnnConfig) (f1 f2 : Flags)
    (hR : R.lookup n = some c)
    (h1c : f1.config = some n) (h1m : f1.melody_encoder_decoder = none)
    (h2c : f2.config = some n) (h2m : f2.melody_encoder_decoder = none) :
    ∃ c1 c2 : AccompanimentRnnConfig,
      config_from_flags f1 R = (Except.ok c1, updateAssoc R n c1) ∧
      config_from_flags f2 (updateAssoc R n c1) =
        (Except.ok c2, updateAssoc (updateAssoc R n c1) n c2) ∧
      c1.hparams = c.hparams.parse f1.hparams ∧
      c2.hparams = (c.hparams.parse f1.hparams).parse f2.hparams := by
  refine ⟨branchBResult f1 c, branchBResult f2 (branchBResult f1 c),
    branchB_spec f1 R n c h1c h1m hR,
    branchB_spec f2 _ n _ h2c h2m
      (lookup_updateAssoc R n c (branchBResult f1 c) hR), ?_, ?_⟩
  · exact branchBResult_hparams f1 c
  · rw [branchBResult_hparams, branchBResult_hparams]

theorem C2_witness :
    ∃ c1 c2 : AccompanimentRnnConfig,
      config_from_flags ⟨some "basic", none, 0, none, none, [("lr", "2")]⟩
          exampleRegistry =
        (Except.ok c1, updateAssoc exampleRegistry "basic" c1) ∧
      config_from_flags ⟨some "basic", none, 0, none, none, [("bs", "3")]⟩
          (updateAssoc exampleRegistry "basic" c1) =
        (Except.ok c2, updateAssoc (updateAssoc exampleRegistry "basic" c1)
          "basic" c2) ∧
      c1.hparams = HParams.parse exampleBaseConfig.hparams [("lr", "2")] ∧
      c2.hparams = HParams.parse
        (HParams.parse exampleBaseConfig.hparams [("lr", "2")]) [("bs", "3")] :=
  C2_cumulative_override exampleRegistry "basic" exampleBaseConfig
    ⟨some "basic", none, 0, none, none, [("lr", "2")]⟩
    ⟨some "basic", none, 0, none, none, [("bs", "3")]⟩ rfl rfl rfl rfl rfl

theorem lookup_eq_none_of_not_mem_keys {β : Type} (l : List (String × β))
    (k : String) (h : k ∉ l.map Prod.fst) : l.lookup k = none := by
  induction l with
  | nil => rfl
  | cons p rest ih =>
    obtain ⟨a, b⟩ := p
    simp only [List.map_cons, List.mem_cons, not_or] at h
    obtain ⟨h1, h2⟩ := h
    have hb : (k == a) = false := by
      simp only [beq_eq_false_iff_ne]
      exact h1
    rw [List.lookup, hb]
    exact ih h2

/-- Claim C3: in Branch A, a `melody_encoder_decoder` value outside the
registry keys onehot, lookback, key raises the exception whose message
mentions the offending value and lists the valid keys; a value among the
keys resolves and the call returns a configuration. -/
theorem C3_encoder_decoder_lookup (f : Flags) (R : DefaultConfigs) (m : String)
    (hc : f.config = none) (hm : f.melody_encoder_decoder = some m) :
    (m ∉ melody_encoder_decoders.map Prod.fst →
      (config_from_flags f R).1 = Except.error ⟨mustBeOneOfMsg
        "--melody_encoder_decoder" (melody_encoder_decoders.map Prod.fst) m⟩ ∧
      mentions (mustBeOneOfMsg "--melody_encoder_decoder"
        (melody_encoder_decoders.map Prod.fst) m) m ∧
      mentions (mustBeOneOfMsg "--melody_encoder_decoder"
        (melody_encoder_decoders.map Prod.fst) m) "onehot" ∧
      mentions (mustBeOneOfMsg "--melody_encoder_decoder"
        (melody_encoder_decoders.map Prod.fst) m) "lookback" ∧
      mentions (mustBeOneOfMsg "--melody_encoder_decoder"
        (melody_encoder_decoders.map Prod.fst) m) "key") ∧
    (m ∈ melody_encoder_decoders.map Prod.fst →
      ∃ c, (config_from_flags f R).1 = Except.ok c) := by
  obtain ⟨oc, om, pas, gid, gdesc, hp⟩ := f
  simp only at hc hm
  subst hc
  subst hm
  constructor
  · intro hnot
    have hlk : melody_encoder_decoders.lookup m = none :=
      lookup_eq_none_of_not_mem_keys _ m hnot
    refine ⟨by simp [config_from_flags, hlk],
      mustBeOneOfMsg_mentions_got _ _ _,
      mustBeOneOfMsg_mentions_key _ _ _ _ (by decide),
      mustBeOneOfMsg_mentions_key _ _ _ _ (by decide),
      mustBeOneOfMsg_mentions_key _ _ _ _ (by decide)⟩
  · intro hmem
    simp only [melody_encoder_decoders, List.map_cons, List.map_nil,
      List.mem_cons, List.not_mem_nil, or_false] at hmem
    rcases hmem with hmem | hmem | hmem <;> subst hmem
    · exact ⟨_, by rw [branchA_spec _ R "onehot" MelodyEncoderDecoderType.oneHot
        rfl rfl rfl]⟩
    · exact ⟨_, by rw [branchA_spec _ R "lookback"
        MelodyEncoderDecoderType.lookback rfl rfl rfl]⟩
    · exact ⟨_, by rw [branchA_spec _ R "key" MelodyEncoderDecoderType.key
        rfl rfl rfl]⟩

theorem C3_witness :
    (config_from_flags ⟨none, some "bogus", 0, none, none, []⟩ []).1 =
      Except.error ⟨mustBeOneOfMsg "--melody_encoder_decoder"
        (melody_encoder_decoders.map Prod.fst) "bogus"⟩ ∧
    mentions (mustBeOneOfMsg "--melody_encoder_decoder"
      (melody_encoder_decoders.map Prod.fst) "bogus") "bogus" ∧
    mentions (mustBeOneOfMsg "--melody_encoder_decoder"
      (melody_encoder_decoders.map Prod.fst) "bogus") "onehot" ∧
    mentions (mustBeOneOfMsg "--melody_encoder_decoder"
      (melody_encoder_decoders.map Prod.fst) "bogus") "lookback" ∧
    mentions (mustBeOneOfMsg "--melody_encoder_decoder"
      (melody_encoder_decoders.map Prod.fst) "bogus") "key" :=
  (C3_encoder_decoder_lookup ⟨none, some "bogus", 0, none, none, []⟩ [] "bogus"
    rfl rfl).1 (by decide)

/-- Claim C4: in Branch B, a `config` value absent from `default_configs`
raises the exception whose message mentions the offending value and lists the
valid registry names. -/
theorem C4_unknown_config (f : Flags) (R : DefaultConfigs) (n : String)
    (hc : f.config = some n) (hm : f.melody_encoder_decoder = none)
    (hR : R.lookup n = none) :
    (config_from_flags f R).1 =
      Except.error ⟨mustBeOneOfMsg "--config" (R.map Prod.fst) n⟩ ∧
    mentions (mustBeOneOfMsg "--config" (R.map Prod.fst) n) n ∧
    ∀ k ∈ R.map Prod.fst,
      mentions (mustBeOneOfMsg "--config" (R.map Prod.fst) n) k := by
  obtain ⟨oc, om, pas, gid, gdesc, hp⟩ := f
  simp only at hc hm
  subst hc
  subst hm
  exact ⟨by simp [config_from_flags, hR],
    mustBeOneOfMsg_mentions_got _ _ _,
    fun k hk => mustBeOneOfMsg_mentions_key _ _ _ k hk⟩

theorem C4_witness :
    (config_from_flags ⟨some "unknown_name", none, 0, none, none, []⟩
        exampleRegistry).1 =
      Except.error ⟨mustBeOneOfMsg "--config" (exampleRegistry.map Prod.fst)
        "unknown_name"⟩ ∧
    mentions (mustBeOneOfMsg "--config" (exampleRegistry.map Prod.fst)
      "unknown_name") "basic" := by
  have h := C4_unknown_config ⟨some "unknown_name", none, 0, none, none, []⟩
    exampleRegistry "unknown_name" rfl rfl rfl
  exact ⟨h.1, h.2.2 "basic" (by decide)⟩

/-- Claim C5: in Branch A the returned details carry `generator_id` when it is
set, with the description attached exactly when `generator_description` is
also set; when `generator_id` is unset the details are absent even if a
description was supplied (the description is silently dropped). -/
theorem C5_branchA_details (f : Flags) (R : DefaultConfigs) (m : String)
    (cls : MelodyEncoderDecoderType)
    (hc : f.config = none) (hm : f.melody_encoder_decoder = some m)
    (hlk : melody_encoder_decoders.lookup m = some cls) :
    ∃ c, (config_from_flags f R).1 = Except.ok c ∧
      (∀ gid, f.generator_id = some gid →
        c.details = some ⟨some gid, f.generator_description⟩) ∧
      (f.generator_id = none → c.details = none) := by
  have h := branchA_spec f R m cls hc hm hlk
  refine ⟨_, congrArg Prod.fst h, ?_, ?_⟩
  · intro gid hgid
    simp [hgid]
  · intro hgid
    simp [hgid]

theorem C5_witness :
    ∃ c, (config_from_flags ⟨none, some "onehot", 4, some "gen1", some "desc1",
        []⟩ []).1 = Except.ok c ∧
      (∀ gid, (some "gen1" : Option String) = some gid →
        c.details = some ⟨some gid, some "desc1"⟩) ∧
      ((some "gen1" : Option String) = none → c.details = none) :=
  C5_branchA_details ⟨none, some "onehot", 4, some "gen1", some "desc1", []⟩ []
    "onehot" MelodyEncoderDecoderType.oneHot rfl rfl rfl

/-- Claim C6: whenever `config_from_flags` raises the exception, no
configuration is produced (the result is the error alone) and the registry is
left exactly as it was: every error return happens before any write-back of a
registry entry. -/
theorem C6_error_preserves_registry (f : Flags) (R : DefaultConfigs)
    (e : AccompanimentRnnConfigFlagsException)
    (h : (config_from_flags f R).1 = Except.error e) :
    (config_from_flags f R).2 = R := by
  obtain ⟨oc, om, pas, gid, gdesc, hp⟩ := f
  cases om with
  | some med =>
    cases oc with
    | some cn => rfl
    | none =>
      cases hlk : melody_encoder_decoders.lookup med with
      | none => simp [config_from_flags, hlk]
      | some cls =>
        rw [branchA_spec ⟨none, some med, pas, gid, gdesc, hp⟩ R med cls
          rfl rfl hlk] at h
        simp at h
  | none =>
    cases oc with
    | none => rfl
    | some cn =>
      cases hlk : R.lookup cn with
      | none => simp [config_from_flags, hlk]
      | some c0 =>
        rw [branchB_spec ⟨some cn, none, pas, gid, gdesc, hp⟩ R cn c0
          rfl rfl hlk] at h
        simp at h

theorem C6_witness :
    (config_from_flags ⟨none, none, 0, none, none, []⟩ exampleRegistry).2 =
      exampleRegistry :=
  C6_error_preserves_registry ⟨none, none, 0, none, none, []⟩ exampleRegistry
    ⟨mutualExclusionMsg⟩ rfl

/-- Claim C7: in Branch A the returned hparams come from parsing the override
into a mapping freshly created with empty defaults, merged with nothing
pre-existing. -/
theorem C7_branchA_fresh_hparams (f : Flags) (R : DefaultConfigs) (m : String)
    (cls : MelodyEncoderDecoderType)
    (hc : f.config = none) (hm : f.melody_encoder_decoder = some m)
    (hlk : melody_encoder_decoders.lookup m = some cls) :
    ∃ c, (config_from_flags f R).1 = Except.ok c ∧
      c.hparams = HParams.parse HParams.empty f.hparams :=
  ⟨_, congrArg Prod.fst (branchA_spec f R m cls hc hm hlk), rfl⟩

theorem C7_witness :
    ∃ c, (config_from_flags ⟨none, some "key", 0, none, none, [("lr", "5")]⟩
        exampleRegistry).1 = Except.ok c ∧
      c.hparams = HParams.parse HParams.empty [("lr", "5")] :=
  C7_branchA_fresh_hparams ⟨none, some "key", 0, none, none, [("lr", "5")]⟩
    exampleRegistry "key" MelodyEncoderDecoderType.key rfl rfl rfl

/-- Claim C8: in Branch A the constructed melody-pair strategy wraps the
resolved encoder/decoder together with exactly the supplied
`predictahead_steps` integer, for every integer including negative values,
with no range check. -/
theorem C8_predictahead_passthrough (f : Flags) (R : DefaultConfigs)
    (m : String) (cls : MelodyEncoderDecoderType)
    (hc : f.config = none) (hm : f.melody_encoder_decoder = some m)
    (hlk : melody_encoder_decoders.lookup m = some cls) :
    ∃ c, (config_from_flags f R).1 = Except.ok c ∧
      c.encoder_decoder = ⟨cls, f.predictahead_steps⟩ :=
  ⟨_, congrArg Prod.fst (branchA_spec f R m cls hc hm hlk), rfl⟩

theorem C8_witness :
    ∃ c, (config_from_flags ⟨none, some "lookback", -5, none, none, []⟩ []).1 =
        Except.ok c ∧
      c.encoder_decoder = ⟨MelodyEncoderDecoderType.lookback, -5⟩ :=
  C8_predictahead_passthrough ⟨none, some "lookback", -5, none, none, []⟩ []
    "lookback" MelodyEncoderDecoderType.lookback rfl rfl rfl

/-- Claim C9: in Branch B, after a successful lookup, the returned details id
is `generator_id` when set and the registry default otherwise, and
independently the description is `generator_description` when set and the
registry default otherwise. -/
theorem C9_branchB_details (f : Flags) (R : DefaultConfigs) (n : String)
    (c : AccompanimentRnnConfig) (d : GeneratorDetails)
    (hc : f.config = some n) (hm : f.melody_encoder_decoder = none)
    (hR : R.lookup n = some c) (hd : c.details = some d) :
    ∃ c2, (config_from_flags f R).1 = Except.ok c2 ∧
      c2.details = some
        { id := (match f.generator_id with
            | some g => some g
            | none => d.id),
          description := (match f.generator_description with
            | some s => some s
            | none => d.description) } := by
  have h := branchB_spec f R n c hc hm hR
  refine ⟨branchBResult f c, congrArg Prod.fst h, ?_⟩
  unfold branchBResult
  cases hg : f.generator_id <;> cases hds : f.generator_description <;>
    simp [hd]

theorem C9_witness :
    ∃ c2, (config_from_flags ⟨some "basic", none, 0, some "gid2", none, []⟩
        exampleRegistry).1 = Except.ok c2 ∧
      c2.details = some ⟨some "gid2", none⟩ :=
  C9_branchB_details ⟨some "basic", none, 0, some "gid2", none, []⟩
    exampleRegistry "basic" exampleBaseConfig ⟨some "id0", none⟩
    rfl rfl rfl rfl

/-- Claim C10: the mutual-exclusion check counts a flag as supplied whenever
it is not None, so an empty string counts as supplied: with `config` the
empty string and `melody_encoder_decoder` unset the exclusion check passes
and the call fails in the registry-miss branch instead, and symmetrically
for an empty `melody_encoder_decoder`. -/
theorem C10_empty_string_supplied (R : DefaultConfigs) (pas : Int)
    (gid gdesc : Option String) (hp : List (String × String))
    (hR : R.lookup "" = none) :
    (config_from_flags ⟨some "", none, pas, gid, gdesc, hp⟩ R).1 =
      Except.error ⟨mustBeOneOfMsg "--config" (R.map Prod.fst) ""⟩ ∧
    mustBeOneOfMsg "--config" (R.map Prod.fst) "" ≠ mutualExclusionMsg ∧
    (config_from_flags ⟨none, some "", pas, gid, gdesc, hp⟩ R).1 =
      Except.error ⟨mustBeOneOfMsg "--melody_encoder_decoder"
        (melody_encoder_decoders.map Prod.fst) ""⟩ ∧
    mustBeOneOfMsg "--melody_encoder_decoder"
      (melody_encoder_decoders.map Prod.fst) "" ≠ mutualExclusionMsg := by
  have hlk : melody_encoder_decoders.lookup "" = none := rfl
  exact ⟨by simp [config_from_flags, hR],
    mustBeOneOfMsg_ne_mutualExclusionMsg _ _ _,
    by simp [config_from_flags, hlk],
    mustBeOneOfMsg_ne_mutualExclusionMsg _ _ _⟩

theorem C10_witness :
    (config_from_flags ⟨some "", none, 0, none, none, []⟩ exampleRegistry).1 =
      Except.error ⟨mustBeOneOfMsg "--config" (exampleRegistry.map Prod.fst)
        ""⟩ ∧
    mustBeOneOfMsg "--config" (exampleRegistry.map Prod.fst) "" ≠
      mutualExclusionMsg ∧
    (config_from_flags ⟨none, some "", 0, none, none, []⟩ exampleRegistry).1 =
      Except.error ⟨mustBeOneOfMsg "--melody_encoder_decoder"
        (melody_encoder_decoders.map Prod.fst) ""⟩ ∧
    mustBeOneOfMsg "--melody_encoder_decoder"
      (melody_encoder_decoders.map Prod.fst) "" ≠ mutualExclusionMsg :=
  C10_empty_string_supplied exampleRegistry 0 none none [] rfl
